import Mathlib

/-!
Shallow embedding of the stockflow backend (two handlers):
the low-stock alert engine of `part3_alerts.py` (a SQL query modelled as
list pipelines over record rows) and the product-creation transaction of
`part1_debug.py` (modelled as explicit state passing with a fault oracle
for database exceptions).

Conventions: SQL DECIMAL is embedded as `ℚ` (exact arithmetic), dates as
integer day numbers, table rows as structures, multi-row SQL joins as
nested `flatMap`/`filter`, `DISTINCT ON ... ORDER BY` and `ORDER BY` as
the stable sort `List.insertionSort`.
-/

/-- A row of the `daily_sales_summary` table. `sale_date` is a day number. -/
structure SaleRow where
  product_id : Nat
  warehouse_id : Nat
  sale_date : Int
  quantity_sold : Nat
  deriving DecidableEq, Repr

/-- A row of the `products` table. -/
structure ProductRow where
  id : Nat
  company_id : Nat
  name : String
  sku : String
  category_id : Option Nat
  low_stock_threshold : Option Int
  is_active : Bool
  deriving DecidableEq, Repr

/-- A row of the `product_categories` table. -/
structure CategoryRow where
  id : Nat
  low_stock_threshold_default : Option Int
  deriving DecidableEq, Repr

/-- A row of the `warehouses` table. -/
structure WarehouseRow where
  id : Nat
  company_id : Nat
  name : String
  deriving DecidableEq, Repr

/-- A row of the `inventory` table; quantity is a non-negative int. -/
structure InventoryRow where
  product_id : Nat
  warehouse_id : Nat
  quantity : Nat
  deriving DecidableEq, Repr

/-- A row of the `suppliers` table. -/
structure SupplierRow where
  id : Nat
  name : String
  contact_email : String
  is_active : Bool
  deriving DecidableEq, Repr

/-- A row of the `product_suppliers` link table; `unit_cost` is DECIMAL. -/
structure ProductSupplierRow where
  product_id : Nat
  supplier_id : Nat
  is_preferred : Bool
  unit_cost : ℚ
  deriving DecidableEq, Repr

/-- A row of the `companies` table. -/
structure CompanyRow where
  id : Nat
  is_active : Bool
  deriving DecidableEq, Repr

/-- The read-only database snapshot observed by the alert query. -/
structure AlertDB where
  companies : List CompanyRow
  products : List ProductRow
  categories : List CategoryRow
  warehouses : List WarehouseRow
  inventory : List InventoryRow
  sales : List SaleRow
  suppliers : List SupplierRow
  product_suppliers : List ProductSupplierRow
  deriving Repr

/-- `lookback_days = 30` as in STEP 2 of the handler. -/
def lookback_days : Nat := 30

/-- Sum of `quantity_sold` over the rows of `daily_sales_summary` for one
(product, warehouse) pair with `sale_date >= lookback_date`
(the `WHERE sale_date >= :lookback_date` filter of the `sales_velocity` CTE,
followed by `SUM(quantity_sold)` for that group). -/
def windowSum (sales : List SaleRow) (lookback_date : Int) (pid wid : Nat) : Nat :=
  ((sales.filter (fun s =>
      s.product_id == pid && s.warehouse_id == wid && decide (lookback_date ≤ s.sale_date))).map
    (fun s => s.quantity_sold)).sum

/-- A row of the derived `sales_velocity` CTE. -/
structure VelocityFact where
  product_id : Nat
  warehouse_id : Nat
  avg_daily_sales : ℚ
  deriving DecidableEq, Repr

/-- The `sales_velocity` CTE: filter sales to `sale_date >= now - 30`,
group by (product_id, warehouse_id), keep groups with
`HAVING SUM(quantity_sold) > 0`, and emit
`SUM(quantity_sold)::DECIMAL / 30` as `avg_daily_sales`. -/
def sales_velocity (sales : List SaleRow) (now : Int) : List VelocityFact :=
  (((sales.filter (fun s => decide (now - (lookback_days : Int) ≤ s.sale_date))).map
      (fun s => (s.product_id, s.warehouse_id))).dedup).filterMap
    (fun pw =>
      if 0 < windowSum sales (now - (lookback_days : Int)) pw.1 pw.2 then
        some { product_id := pw.1, warehouse_id := pw.2,
               avg_daily_sales :=
                 (windowSum sales (now - (lookback_days : Int)) pw.1 pw.2 : ℚ) / (lookback_days : ℚ) }
      else none)

/-- The category row joined by `LEFT JOIN product_categories pc ON p.category_id = pc.id`. -/
def categoryOf (categories : List CategoryRow) (p : ProductRow) : Option CategoryRow :=
  match p.category_id with
  | none => none
  | some cid => categories.find? (fun c => c.id == cid)

/-- `COALESCE(p.low_stock_threshold, pc.low_stock_threshold_default, 10)`. -/
def effectiveThreshold (categories : List CategoryRow) (p : ProductRow) : Int :=
  (p.low_stock_threshold.orElse
    (fun _ => (categoryOf categories p).bind (fun c => c.low_stock_threshold_default))).getD 10

/-- A row of the derived `effective_thresholds` CTE. -/
structure ThresholdRow where
  product_id : Nat
  product_name : String
  sku : String
  threshold : Int
  deriving DecidableEq, Repr

/-- The `effective_thresholds` CTE: active products of the company with the
coalesced threshold. -/
def effective_thresholds (db : AlertDB) (company_id : Nat) : List ThresholdRow :=
  (db.products.filter (fun p => p.company_id == company_id && p.is_active)).map
    (fun p => { product_id := p.id, product_name := p.name, sku := p.sku,
                threshold := effectiveThreshold db.categories p })

/-- The join `product_suppliers ps JOIN suppliers s ON ps.supplier_id = s.id
AND s.is_active = TRUE`, restricted to one product. -/
def activeSupplierLinks (links : List ProductSupplierRow) (suppliers : List SupplierRow)
    (pid : Nat) : List (ProductSupplierRow × SupplierRow) :=
  (links.filter (fun l => l.product_id == pid)).flatMap
    (fun l => (suppliers.filter (fun s => s.id == l.supplier_id && s.is_active)).map
      (fun s => (l, s)))

/-- The per-product ordering `ps.is_preferred DESC, ps.unit_cost ASC` of the
`preferred_suppliers` CTE, as a boolean total preorder. -/
def supplierLE (a b : ProductSupplierRow × SupplierRow) : Bool :=
  (a.1.is_preferred && !b.1.is_preferred) ||
    (a.1.is_preferred == b.1.is_preferred && decide (a.1.unit_cost ≤ b.1.unit_cost))

/-- `supplierLE` as a decidable relation, for the stable sort. -/
def supplierR (a b : ProductSupplierRow × SupplierRow) : Prop :=
  supplierLE a b = true

instance : DecidableRel supplierR :=
  fun a b => inferInstanceAs (Decidable (supplierLE a b = true))

instance : IsTotal (ProductSupplierRow × SupplierRow) supplierR := by
  constructor
  intro a b
  simp only [supplierR, supplierLE, Bool.or_eq_true, Bool.and_eq_true, Bool.not_eq_true',
    beq_iff_eq, decide_eq_true_eq]
  rcases le_total a.1.unit_cost b.1.unit_cost with h | h <;>
    cases ha : a.1.is_preferred <;> cases hb : b.1.is_preferred <;> simp_all

instance : IsTrans (ProductSupplierRow × SupplierRow) supplierR := by
  constructor
  intro a b c hab hbc
  simp only [supplierR, supplierLE, Bool.or_eq_true, Bool.and_eq_true, Bool.not_eq_true',
    beq_iff_eq, decide_eq_true_eq] at *
  cases ha : a.1.is_preferred <;> cases hb : b.1.is_preferred <;>
    cases hc : c.1.is_preferred <;> simp_all <;> exact le_trans hab hbc

/-- The `preferred_suppliers` CTE restricted to one product:
`SELECT DISTINCT ON (ps.product_id) ... ORDER BY ps.product_id,
ps.is_preferred DESC, ps.unit_cost ASC` keeps the first row of each
product group under that ordering (embedded as the head of a stable
sort by that ordering). -/
def preferred_suppliers (links : List ProductSupplierRow) (suppliers : List SupplierRow)
    (pid : Nat) : Option SupplierRow :=
  ((List.insertionSort supplierR (activeSupplierLinks links suppliers pid)).head?).map
    (fun x => x.2)

/-- `CASE WHEN sv.avg_daily_sales > 0 THEN
FLOOR(i.quantity / sv.avg_daily_sales)::INTEGER ELSE NULL END`
(`Rat.floor` is the floor function on `ℚ`). -/
def daysUntilStockout (quantity : Nat) (avg_daily_sales : ℚ) : Option Int :=
  if 0 < avg_daily_sales then some (Rat.floor ((quantity : ℚ) / avg_daily_sales)) else none

/-- The supplier sub-object of a response alert. -/
structure SupplierInfo where
  id : Nat
  name : String
  contact_email : String
  deriving DecidableEq, Repr

/-- One alert of the response body (STEP 4 of the handler). -/
structure Alert where
  product_id : Nat
  product_name : String
  sku : String
  warehouse_id : Nat
  warehouse_name : String
  current_stock : Nat
  threshold : Int
  days_until_stockout : Option Int
  supplier : Option SupplierInfo
  deriving DecidableEq, Repr

/-- STEP 4's `if row.supplier_id:` truthiness check on the LEFT JOIN result:
the supplier object is attached only when the joined `supplier_id` is
present and non-zero. -/
def supplierField (s : Option SupplierRow) : Option SupplierInfo :=
  match s with
  | some s => if s.id ≠ 0 then some { id := s.id, name := s.name, contact_email := s.contact_email }
              else none
  | none => none

/-- The main query before `ORDER BY`:
`FROM inventory i JOIN effective_thresholds et ON i.product_id = et.product_id
JOIN warehouses w ON i.warehouse_id = w.id AND w.company_id = :company_id
JOIN sales_velocity sv ON i.product_id = sv.product_id AND i.warehouse_id = sv.warehouse_id
LEFT JOIN preferred_suppliers ps ON i.product_id = ps.product_id
WHERE i.quantity < et.threshold`. -/
def alertRows (db : AlertDB) (company_id : Nat) (now : Int) : List Alert :=
  db.inventory.flatMap (fun i =>
    ((effective_thresholds db company_id).filter (fun et => et.product_id == i.product_id)).flatMap
      (fun et =>
        (db.warehouses.filter (fun w => w.id == i.warehouse_id && w.company_id == company_id)).flatMap
          (fun w =>
            ((sales_velocity db.sales now).filter (fun sv =>
                sv.product_id == i.product_id && sv.warehouse_id == i.warehouse_id)).filterMap
              (fun sv =>
                if (i.quantity : Int) < et.threshold then
                  some { product_id := et.product_id, product_name := et.product_name,
                         sku := et.sku, warehouse_id := w.id, warehouse_name := w.name,
                         current_stock := i.quantity, threshold := et.threshold,
                         days_until_stockout := daysUntilStockout i.quantity sv.avg_daily_sales,
                         supplier :=
                           supplierField
                             (preferred_suppliers db.product_suppliers db.suppliers i.product_id) }
                else none))))

/-- The `ORDER BY days_until_stockout ASC NULLS LAST` comparison. -/
def stockoutLE (a b : Option Int) : Bool :=
  match a, b with
  | none, none => true
  | none, some _ => false
  | some _, none => true
  | some x, some y => decide (x ≤ y)

/-- The comparison applied to alerts by the final `ORDER BY`. -/
def alertLE (a b : Alert) : Bool :=
  stockoutLE a.days_until_stockout b.days_until_stockout

/-- `alertLE` as a decidable relation, for the stable sort. -/
def alertR (a b : Alert) : Prop :=
  alertLE a b = true

instance : DecidableRel alertR :=
  fun a b => inferInstanceAs (Decidable (alertLE a b = true))

instance : IsTotal Alert alertR := by
  constructor
  intro a b
  simp only [alertR, alertLE]
  generalize a.days_until_stockout = da
  generalize b.days_until_stockout = db2
  cases da <;> cases db2 <;> simp_all [stockoutLE] <;> omega

instance : IsTrans Alert alertR := by
  constructor
  intro a b c hab hbc
  simp only [alertR, alertLE] at *
  generalize a.days_until_stockout = da at *
  generalize b.days_until_stockout = db2 at *
  generalize c.days_until_stockout = dc at *
  cases da <;> cases db2 <;> cases dc <;> simp_all [stockoutLE] <;> omega

/-- The full query result: the joined, filtered rows sorted ascending by
`days_until_stockout` with nulls last (`ORDER BY days_until_stockout ASC
NULLS LAST`, embedded as a stable sort). -/
def sortedAlertRows (db : AlertDB) (company_id : Nat) (now : Int) : List Alert :=
  List.insertionSort alertR (alertRows db company_id now)

/-- The three possible responses of the handler: 404 company not found,
500 on a database error while fetching, 200 with the alert list. -/
inductive AlertResponse where
  | notFound
  | serverError
  | ok (alerts : List Alert) (total_alerts : Nat)
  deriving DecidableEq, Repr

/-- The `get_low_stock_alerts` handler: validate the company (STEP 1),
run the query inside try/except (STEP 3; `fetchFails` models the query
raising), build the response (STEP 4). -/
def get_low_stock_alerts (db : AlertDB) (company_id : Nat) (now : Int)
    (fetchFails : Bool) : AlertResponse :=
  match db.companies.find? (fun c => c.id == company_id && c.is_active) with
  | none => .notFound
  | some _ =>
    if fetchFails then .serverError
    else
      let alerts := sortedAlertRows db company_id now
      .ok alerts alerts.length

/-- Modelled from the spec: the Velocity Aggregator window as the spec words
it, sales entries dated in the half-open interval
`[now - window_days, now)` (the source query has no upper bound on
`sale_date`; this definition exists to compare the two). -/
def windowSumSpec (sales : List SaleRow) (now : Int) (window_days : Nat) (pid wid : Nat) : Nat :=
  ((sales.filter (fun s =>
      s.product_id == pid && s.warehouse_id == wid &&
        decide (now - (window_days : Int) ≤ s.sale_date) && decide (s.sale_date < now))).map
    (fun s => s.quantity_sold)).sum

/-- A JSON value destined for `int(...)` conversion: either it converts to an
integer or the conversion raises (ValueError/TypeError). -/
inductive QtyVal where
  | intLike (n : Int)
  | malformed
  deriving DecidableEq, Repr

/-- A JSON value destined for `Decimal(str(...))` conversion: either it
converts to an exact decimal or the conversion raises. -/
inductive PriceVal where
  | decimalLike (q : ℚ)
  | malformed
  deriving DecidableEq, Repr

/-- The JSON body of a `POST /api/products` request; `none` fields are
absent keys. -/
structure CreateRequest where
  name : Option String
  sku : Option String
  price : Option PriceVal
  description : Option String
  warehouse_id : Option Int
  initial_quantity : Option QtyVal
  deriving DecidableEq, Repr

/-- A committed row of the products table on the part-1 side. -/
structure StoredProduct where
  id : Nat
  name : String
  sku : String
  price : Option ℚ
  description : String
  deriving DecidableEq, Repr

/-- A committed row of the inventory table on the part-1 side. -/
structure StoredInventory where
  product_id : Nat
  warehouse_id : Int
  quantity : Int
  deriving DecidableEq, Repr

/-- The committed database state seen by `create_product`; `warehouses`
lists the existing warehouse ids and `next_product_id` models the id the
flush assigns to the inserted product. -/
structure ProductDB where
  products : List StoredProduct
  inventory : List StoredInventory
  warehouses : List Int
  next_product_id : Nat
  deriving DecidableEq, Repr

/-- The behaviour of the database inside the try block: the flush/commit
succeeds, raises an `IntegrityError` (whose message may or may not mention
`sku`), or raises some other exception. -/
inductive DbFault where
  | ok
  | integrityError (mentionsSku : Bool)
  | otherError
  deriving DecidableEq, Repr

/-- The `product` object of a 201 response; `price` is
`str(product.price) if product.price else None`, kept as the exact value. -/
structure RespProduct where
  id : Nat
  name : String
  sku : String
  price : Option ℚ
  deriving DecidableEq, Repr

/-- The `inventory` object of a 201 response, present only when an
inventory row was created. -/
structure RespInventory where
  warehouse_id : Int
  quantity : Int
  deriving DecidableEq, Repr

/-- The possible responses of `create_product`: 400, 404 (warehouse),
409 (duplicate SKU, distinguishable), 400 (generic constraint violation),
500, and 201. -/
inductive CreateResponse where
  | badRequest (msg : String)
  | warehouseNotFound (warehouse_id : Int)
  | skuConflict (sku : String)
  | constraintViolation
  | serverError
  | created (product : RespProduct) (inventory : Option RespInventory)
  deriving DecidableEq, Repr

/-- Python `str.strip()`: drop leading and trailing whitespace. -/
def pyStrip (s : String) : String :=
  ⟨((s.data.dropWhile Char.isWhitespace).reverse.dropWhile Char.isWhitespace).reverse⟩

/-- Python `str.upper()` (ASCII case mapping). -/
def pyUpper (s : String) : String :=
  ⟨s.data.map Char.toUpper⟩

/-- Python truthiness of an optional string field (`not data.get(f)`). -/
def truthyStr (s : Option String) : Bool :=
  match s with
  | none => false
  | some s => s != ""

/-- Python truthiness of an optional integer field (`if warehouse_id:`). -/
def truthyInt (n : Option Int) : Bool :=
  match n with
  | none => false
  | some n => n != 0

/-- `data['sku'].strip().upper()`. -/
def normalizeSku (s : Option String) : String :=
  pyUpper (pyStrip (s.getD ""))

/-- The price validation block: absent → None; convertible → reject
negatives; not convertible → invalid format. -/
def validatePrice (p : Option PriceVal) : Except String (Option ℚ) :=
  match p with
  | none => .ok none
  | some (.decimalLike q) => if q < 0 then .error "Price cannot be negative" else .ok (some q)
  | some .malformed => .error "Invalid price format"

/-- `str(product.price) if product.price else None`: `Decimal(0)` is falsy,
so a zero price is rendered as None. -/
def respPrice (price : Option ℚ) : Option ℚ :=
  match price with
  | some q => if q ≠ 0 then some q else none
  | none => none

/-- The try block of `create_product`: build the product, flush, optionally
add the inventory row, commit both; on `IntegrityError` roll back and map a
sku-mentioning message to 409, otherwise a generic 400; on any other
exception roll back to a 500. Rollback leaves the committed state
untouched. -/
def tryInsert (db : ProductDB) (fault : DbFault) (data : CreateRequest) (sku : String)
    (price : Option ℚ) (inv : Option (Int × Int)) : CreateResponse × ProductDB :=
  match fault with
  | .integrityError true => (.skuConflict sku, db)
  | .integrityError false => (.constraintViolation, db)
  | .otherError => (.serverError, db)
  | .ok =>
    let pid := db.next_product_id
    let product : StoredProduct :=
      { id := pid, name := pyStrip (data.name.getD ""), sku := sku, price := price,
        description := pyStrip (data.description.getD "") }
    let db1 : ProductDB :=
      { db with products := db.products ++ [product], next_product_id := pid + 1 }
    match inv with
    | some wq =>
      (.created { id := pid, name := product.name, sku := sku, price := respPrice price }
         (some { warehouse_id := wq.1, quantity := wq.2 }),
       { db1 with inventory :=
           db.inventory ++ [{ product_id := pid, warehouse_id := wq.1, quantity := wq.2 }] })
    | none =>
      (.created { id := pid, name := product.name, sku := sku, price := respPrice price } none,
       db1)

/-- The `POST /api/products` handler `create_product`: body check, required
fields, SKU normalization and format check, uniqueness pre-check, price
validation, warehouse existence and quantity validation (only when a truthy
warehouse_id is supplied), then the transactional insert. -/
def create_product (req : Option CreateRequest) (db : ProductDB) (fault : DbFault) :
    CreateResponse × ProductDB :=
  match req with
  | none => (.badRequest "Request body is required", db)
  | some data =>
    let missing_fields :=
      (if truthyStr data.name then [] else ["name"]) ++
        (if truthyStr data.sku then [] else ["sku"])
    if missing_fields ≠ [] then
      (.badRequest ("Missing required fields: " ++ String.intercalate ", " missing_fields), db)
    else
      let sku := normalizeSku data.sku
      if sku == "" || sku.length > 50 then
        (.badRequest "SKU must be 1-50 characters", db)
      else if (db.products.find? (fun p => p.sku == sku)).isSome then
        (.skuConflict sku, db)
      else
        match validatePrice data.price with
        | .error msg => (.badRequest msg, db)
        | .ok price =>
          if truthyInt data.warehouse_id then
            let wid := data.warehouse_id.getD 0
            if !(db.warehouses.contains wid) then
              (.warehouseNotFound wid, db)
            else
              match data.initial_quantity.getD (.intLike 0) with
              | .malformed => (.badRequest "Invalid quantity format", db)
              | .intLike qty =>
                if qty < 0 then
                  (.badRequest "Initial quantity cannot be negative", db)
                else tryInsert db fault data sku price (some (wid, qty))
          else tryInsert db fault data sku price none

/-! ## Fixtures used by concrete witnesses -/

/-- A one-row sales ledger used by the concrete witnesses. -/
def sampleSales : List SaleRow := [⟨1, 1, 100, 30⟩]

/-- A small database snapshot with one active company, one active product
(threshold falls back to 10), one warehouse, two identical inventory rows
for the pair (1, 1), and 30 units sold inside the window. -/
def sampleAlertDB : AlertDB :=
  { companies := [⟨1, true⟩],
    products := [⟨1, 1, "P1", "S1", none, none, true⟩],
    categories := [],
    warehouses := [⟨1, 1, "W"⟩],
    inventory := [⟨1, 1, 5⟩, ⟨1, 1, 5⟩],
    sales := sampleSales,
    suppliers := [],
    product_suppliers := [] }

/-- The average daily sales the query computes for pair (1, 1) of
`sampleAlertDB` at `now = 100`. -/
def sampleAvg : ℚ :=
  (windowSum sampleSales (100 - (lookback_days : Int)) 1 1 : ℚ) / (lookback_days : ℚ)

/-- The alert row the query computes for each inventory row of
`sampleAlertDB` at `now = 100`. -/
def sampleAlert : Alert := ⟨1, "P1", "S1", 1, "W", 5, 10, daysUntilStockout 5 sampleAvg, none⟩

/-- An empty part-1 database with one warehouse (id 1). -/
def sampleProductDB : ProductDB := ⟨[], [], [1], 1⟩

/-- A well-formed creation request with a warehouse and an initial quantity. -/
def sampleCreateReq : CreateRequest :=
  ⟨some "Widget", some " wid-1 ", none, none, some 1, some (.intLike 3)⟩

/-- A creation request whose SKU needs stripping and upcasing. -/
def sampleReqA : CreateRequest := ⟨some "X", some " ab ", none, none, none, none⟩

/-- A creation request whose SKU is the normalized form of `sampleReqA`'s. -/
def sampleReqB : CreateRequest := ⟨some "Y", some "AB", none, none, none, none⟩

/-- A creation request without a warehouse but with an initial quantity. -/
def sampleReqNoWh : CreateRequest := ⟨some "X", some "AB", none, none, none, some (.intLike 3)⟩

/-! ## Helper lemmas -/

theorem ratFloor_eq_intFloor (q : ℚ) : q.floor = ⌊q⌋ := by
  rw [Rat.floor_def', Rat.floor_def]

theorem natSum_pos_iff : ∀ l : List Nat, 0 < l.sum ↔ ∃ x ∈ l, 0 < x
  | [] => by simp
  | a :: t => by
    simp only [List.sum_cons, List.mem_cons]
    rw [show (0 < a + t.sum ↔ 0 < a ∨ 0 < t.sum) by omega, natSum_pos_iff t]
    constructor
    · rintro (h | ⟨x, hx, hp⟩)
      · exact ⟨a, Or.inl rfl, h⟩
      · exact ⟨x, Or.inr hx, hp⟩
    · rintro ⟨x, rfl | hx, hp⟩
      · exact Or.inl hp
      · exact Or.inr ⟨x, hx, hp⟩

/-- A positive window sum is witnessed by an in-window sale row of the pair. -/
theorem windowSum_pos_exists {sales : List SaleRow} {lb : Int} {pid wid : Nat}
    (h : 0 < windowSum sales lb pid wid) :
    ∃ s ∈ sales, s.product_id = pid ∧ s.warehouse_id = wid ∧ lb ≤ s.sale_date ∧
      0 < s.quantity_sold := by
  unfold windowSum at h
  rw [natSum_pos_iff] at h
  obtain ⟨x, hx, hp⟩ := h
  rw [List.mem_map] at hx
  obtain ⟨s, hs, rfl⟩ := hx
  rw [List.mem_filter] at hs
  obtain ⟨hmem, hcond⟩ := hs
  simp only [Bool.and_eq_true, beq_iff_eq, decide_eq_true_eq] at hcond
  exact ⟨s, hmem, hcond.1.1, hcond.1.2, hcond.2, hp⟩

/-- Membership characterization of the `sales_velocity` CTE: a fact for a
pair exists exactly when the pair's window sum is positive, and then its
value is that sum divided by `lookback_days`. -/
theorem mem_sales_velocity {sales : List SaleRow} {now : Int} {v : VelocityFact} :
    v ∈ sales_velocity sales now ↔
      0 < windowSum sales (now - (lookback_days : Int)) v.product_id v.warehouse_id ∧
      v.avg_daily_sales =
        (windowSum sales (now - (lookback_days : Int)) v.product_id v.warehouse_id : ℚ) /
          (lookback_days : ℚ) := by
  constructor
  · intro hv
    simp only [sales_velocity, List.mem_filterMap] at hv
    obtain ⟨pw, _, hf⟩ := hv
    by_cases hpos : 0 < windowSum sales (now - (lookback_days : Int)) pw.1 pw.2
    · rw [if_pos hpos] at hf
      cases hf
      exact ⟨hpos, rfl⟩
    · rw [if_neg hpos] at hf
      cases hf
  · rintro ⟨hpos, havg⟩
    obtain ⟨s, hs, hpid, hwid, hdate, -⟩ := windowSum_pos_exists hpos
    simp only [sales_velocity, List.mem_filterMap]
    refine ⟨(v.product_id, v.warehouse_id), ?_, ?_⟩
    · rw [List.mem_dedup, List.mem_map]
      refine ⟨s, ?_, by rw [hpid, hwid]⟩
      rw [List.mem_filter]
      exact ⟨hs, by simpa using hdate⟩
    · rw [if_pos hpos]
      cases v
      simp only at havg ⊢
      rw [havg]

/-! ## Claim C4 -/

/-- Claim C4 as stated is refuted: the claim asserts a velocity fact
exists iff the summed `quantity_sold` over the half-open window
`[now - window_days, now)` is positive. On the concrete input of one
sale of 5 units dated day 400 with `now = 100` (a future-dated summary
row), the code produces a velocity fact although the claimed window sum
is 0: the query's filter `sale_date >= lookback_date` has no upper
bound. -/
theorem C4_window_counterexample :
    (∃ v ∈ sales_velocity [⟨1, 1, 400, 5⟩] 100, v.product_id = 1 ∧ v.warehouse_id = 1) ∧
    windowSumSpec [⟨1, 1, 400, 5⟩] 100 lookback_days 1 1 = 0 := by
  constructor
  · decide
  · decide

/-- Claim C4 amended: for every (product, warehouse) pair, a velocity fact
exists iff the summed `quantity_sold` over sales dated on or after
`now - window_days` (with no upper bound) is strictly positive, and
the fact's value is that sum divided by `window_days`, computed exactly
in `ℚ`; a pair whose sum is zero yields no fact at all. -/
theorem C4_velocity_gate (sales : List SaleRow) (now : Int) (pid wid : Nat) :
    ((∃ v ∈ sales_velocity sales now, v.product_id = pid ∧ v.warehouse_id = wid) ↔
      0 < windowSum sales (now - (lookback_days : Int)) pid wid) ∧
    (∀ v ∈ sales_velocity sales now, v.product_id = pid → v.warehouse_id = wid →
      v.avg_daily_sales =
        (windowSum sales (now - (lookback_days : Int)) pid wid : ℚ) / (lookback_days : ℚ)) := by
  constructor
  · constructor
    · rintro ⟨v, hv, hpid, hwid⟩
      have h := mem_sales_velocity.mp hv
      rw [hpid, hwid] at h
      exact h.1
    · intro hpos
      refine ⟨⟨pid, wid,
        (windowSum sales (now - (lookback_days : Int)) pid wid : ℚ) / (lookback_days : ℚ)⟩,
        ?_, rfl, rfl⟩
      exact mem_sales_velocity.mpr ⟨hpos, rfl⟩
  · intro v hv hpid hwid
    have h := mem_sales_velocity.mp hv
    rw [hpid, hwid] at h
    exact h.2

/-- Witness for C4's amended theorem at a concrete input: one sale of 30
units inside the window produces a fact for the pair (1, 1). -/
theorem C4_velocity_gate_witness :
    ∃ v ∈ sales_velocity sampleSales 100, v.product_id = 1 ∧ v.warehouse_id = 1 :=
  (C4_velocity_gate sampleSales 100 1 1).1.mpr (by decide)

/-! ## Claim C3 -/

/-- Claim C3: the resolved threshold is the product's own `low_stock_threshold`
when present (regardless of the category), otherwise the joined category's
`low_stock_threshold_default` when present, otherwise the global fallback
10; resolution is total by construction (`effectiveThreshold` always
returns an integer). -/
theorem C3_threshold_resolution (categories : List CategoryRow) (p : ProductRow) :
    (∀ t, p.low_stock_threshold = some t → effectiveThreshold categories p = t) ∧
    (∀ c d, p.low_stock_threshold = none → categoryOf categories p = some c →
      c.low_stock_threshold_default = some d → effectiveThreshold categories p = d) ∧
    (p.low_stock_threshold = none →
      (categoryOf categories p).bind (fun c => c.low_stock_threshold_default) = none →
      effectiveThreshold categories p = 10) := by
  refine ⟨?_, ?_, ?_⟩
  · intro t ht
    simp [effectiveThreshold, ht, Option.orElse]
  · intro c d hp hc hd
    simp [effectiveThreshold, hp, hc, hd, Option.orElse]
  · intro hp hc
    simp [effectiveThreshold, hp, hc, Option.orElse]

/-- Witness for C3 on concrete products: an override of 5 wins over a
category default of 15; with no override the category default 15 is used;
with neither, the fallback 10 is returned. -/
theorem C3_threshold_resolution_witness :
    effectiveThreshold [⟨7, some 15⟩] ⟨1, 1, "A", "SK-A", some 7, some 5, true⟩ = 5 ∧
    effectiveThreshold [⟨7, some 15⟩] ⟨2, 1, "B", "SK-B", some 7, none, true⟩ = 15 ∧
    effectiveThreshold [⟨7, some 15⟩] ⟨3, 1, "C", "SK-C", none, none, true⟩ = 10 :=
  ⟨(C3_threshold_resolution [⟨7, some 15⟩] ⟨1, 1, "A", "SK-A", some 7, some 5, true⟩).1 5 rfl,
   (C3_threshold_resolution [⟨7, some 15⟩] ⟨2, 1, "B", "SK-B", some 7, none, true⟩).2.1
     ⟨7, some 15⟩ 15 rfl rfl rfl,
   (C3_threshold_resolution [⟨7, some 15⟩] ⟨3, 1, "C", "SK-C", none, none, true⟩).2.2 rfl rfl⟩

/-! ## Claim C5 -/

/-- Claim C5: when `avg_daily_sales > 0`, `days_until_stockout` is
`floor(current_stock / avg_daily_sales)` and is non-negative; otherwise it
is the explicit null, never zero and never an error, and the division is
never attempted (the `CASE` guard returns `NULL` without dividing). -/
theorem C5_stockout_forecast (quantity : Nat) (avg : ℚ) :
    (0 < avg → daysUntilStockout quantity avg = some ⌊(quantity : ℚ) / avg⌋ ∧
      ∀ d, daysUntilStockout quantity avg = some d → 0 ≤ d) ∧
    (¬ 0 < avg → daysUntilStockout quantity avg = none) := by
  constructor
  · intro h
    constructor
    · simp [daysUntilStockout, h, ratFloor_eq_intFloor]
    · intro d hd
      simp only [daysUntilStockout, if_pos h, Option.some.injEq] at hd
      rw [← hd, ratFloor_eq_intFloor]
      exact Int.floor_nonneg.mpr (div_nonneg (Nat.cast_nonneg quantity) h.le)
  · intro h
    simp [daysUntilStockout, h]

/-- Witness for C5 at the spec's example: stock 40 at 2 units/day forecasts
20 days; a non-positive velocity forecasts null. -/
theorem C5_stockout_forecast_witness :
    daysUntilStockout 40 2 = some 20 ∧ daysUntilStockout 5 0 = none := by
  constructor
  · rw [((C5_stockout_forecast 40 2).1 (by norm_num)).1]
    norm_num
  · exact (C5_stockout_forecast 5 0).2 (by norm_num)

/-! ## Claim C6 -/

theorem supplierR_refl (a : ProductSupplierRow × SupplierRow) : supplierR a a := by
  simp [supplierR, supplierLE]

/-- Claim C6: for every product, the supplier selection returns no supplier
exactly when the product has no active supplier links, and otherwise
returns the supplier of a link that is minimal under
`is_preferred DESC, unit_cost ASC`; on the spec's example (a
non-preferred link at cost 5 and a preferred link at cost 8) it returns
the preferred supplier. -/
theorem C6_supplier_selection :
    (∀ links suppliers pid,
      (preferred_suppliers links suppliers pid = none ↔
        activeSupplierLinks links suppliers pid = []) ∧
      (∀ s, preferred_suppliers links suppliers pid = some s →
        ∃ l, (l, s) ∈ activeSupplierLinks links suppliers pid ∧
          ∀ x ∈ activeSupplierLinks links suppliers pid, supplierR (l, s) x)) ∧
    preferred_suppliers [⟨1, 10, false, 5⟩, ⟨1, 20, true, 8⟩]
      [⟨10, "Cheap Co", "cheap@x.com", true⟩, ⟨20, "Preferred Co", "pref@x.com", true⟩] 1 =
      some ⟨20, "Preferred Co", "pref@x.com", true⟩ := by
  constructor
  · intro links suppliers pid
    constructor
    · unfold preferred_suppliers
      rw [Option.map_eq_none', List.head?_eq_none_iff]
      constructor
      · intro h
        have := List.length_insertionSort supplierR (activeSupplierLinks links suppliers pid)
        rw [h] at this
        exact List.eq_nil_of_length_eq_zero this.symm
      · intro h
        rw [h]
        rfl
    · intro s hs
      unfold preferred_suppliers at hs
      rw [Option.map_eq_some'] at hs
      obtain ⟨x, hx, hxs⟩ := hs
      obtain ⟨t, ht⟩ : ∃ t,
          List.insertionSort supplierR (activeSupplierLinks links suppliers pid) = x :: t := by
        cases hsort : List.insertionSort supplierR (activeSupplierLinks links suppliers pid) with
        | nil => rw [hsort] at hx; cases hx
        | cons a t =>
          rw [hsort] at hx
          simp only [List.head?_cons, Option.some.injEq] at hx
          exact ⟨t, by rw [hx]⟩
      have hmem : x ∈ activeSupplierLinks links suppliers pid := by
        rw [← List.mem_insertionSort supplierR (l := activeSupplierLinks links suppliers pid), ht]
        exact List.mem_cons_self x t
      have hsorted := List.sorted_insertionSort supplierR
        (activeSupplierLinks links suppliers pid)
      rw [ht] at hsorted
      subst hxs
      refine ⟨x.1, by simpa using hmem, ?_⟩
      intro y hy
      have hy2 : y ∈ x :: t := by
        rw [← ht, List.mem_insertionSort]
        exact hy
      rcases List.mem_cons.mp hy2 with h | hyt
      · rw [h]
        simpa using supplierR_refl x
      · simpa using List.rel_of_sorted_cons hsorted y hyt
  · decide

/-- Witness for C6's universal part: a product with no links at all gets
no supplier. -/
theorem C6_supplier_selection_witness : preferred_suppliers [] [] 0 = none :=
  ((C6_supplier_selection.1 [] [] 0).1).mpr rfl

/-! ## Claim C1 -/

/-- Claim C1: an alert for a (product, warehouse) pair appears in the output
list iff an inventory row for the pair exists, the product is an active
product of the company, the warehouse belongs to the company, the
inventory quantity is strictly below the product's resolved threshold,
AND the pair's window sum of sold quantities is strictly positive (the
velocity-fact gate, enforced per warehouse); in particular a pair below
threshold with a zero window sum produces no alert. -/
theorem C1_alert_filter (db : AlertDB) (company_id : Nat) (now : Int) (pid wid : Nat) :
    (∃ a ∈ sortedAlertRows db company_id now, a.product_id = pid ∧ a.warehouse_id = wid) ↔
      ∃ i ∈ db.inventory, i.product_id = pid ∧ i.warehouse_id = wid ∧
        (∃ p ∈ db.products, p.id = pid ∧ p.company_id = company_id ∧ p.is_active = true ∧
          (i.quantity : Int) < effectiveThreshold db.categories p) ∧
        (∃ w ∈ db.warehouses, w.id = wid ∧ w.company_id = company_id) ∧
        0 < windowSum db.sales (now - (lookback_days : Int)) pid wid := by
  constructor
  · rintro ⟨a, ha, hapid, hawid⟩
    rw [sortedAlertRows, List.mem_insertionSort] at ha
    simp only [alertRows, effective_thresholds, List.mem_flatMap, List.mem_filter,
      List.mem_filterMap, List.mem_map, Bool.and_eq_true, beq_iff_eq,
      Option.ite_none_right_eq_some, Option.some.injEq] at ha
    obtain ⟨i, hi, et, ⟨⟨p, ⟨hp, hpc, hpa⟩, rfl⟩, hetid⟩, w, ⟨hw, hwid, hwc⟩, sv,
      ⟨hsv, hsvp, hsvw⟩, hlt, rfl⟩ := ha
    dsimp only at hapid hawid hetid hlt
    have hipid : i.product_id = pid := by rw [← hetid]; exact hapid
    have hiwid : i.warehouse_id = wid := by rw [← hwid]; exact hawid
    refine ⟨i, hi, hipid, hiwid,
      ⟨p, hp, by rw [hetid, hipid], hpc, hpa, hlt⟩,
      ⟨w, hw, by rw [hwid, hiwid], hwc⟩, ?_⟩
    have hpos := (mem_sales_velocity.mp hsv).1
    rw [hsvp, hsvw, hipid, hiwid] at hpos
    exact hpos
  · rintro ⟨i, hi, hipid, hiwid, ⟨p, hp, hppid, hpc, hpa, hlt⟩, ⟨w, hw, hwwid, hwc⟩, hpos⟩
    have hposi : 0 < windowSum db.sales (now - (lookback_days : Int))
        i.product_id i.warehouse_id := by
      rw [hipid, hiwid]
      exact hpos
    refine ⟨Alert.mk p.id p.name p.sku w.id w.name i.quantity
        (effectiveThreshold db.categories p)
        (daysUntilStockout i.quantity
          ((windowSum db.sales (now - (lookback_days : Int)) i.product_id i.warehouse_id : ℚ) /
            (lookback_days : ℚ)))
        (supplierField (preferred_suppliers db.product_suppliers db.suppliers i.product_id)),
      ?_, ?_, ?_⟩
    · rw [sortedAlertRows, List.mem_insertionSort]
      simp only [alertRows, effective_thresholds, List.mem_flatMap, List.mem_filter,
        List.mem_filterMap, List.mem_map, Bool.and_eq_true, beq_iff_eq,
        Option.ite_none_right_eq_some, Option.some.injEq]
      refine ⟨i, hi,
        { product_id := p.id, product_name := p.name, sku := p.sku,
          threshold := effectiveThreshold db.categories p },
        ⟨⟨p, ⟨hp, hpc, hpa⟩, rfl⟩, by dsimp only; rw [hppid, hipid]⟩,
        w, ⟨hw, by rw [hwwid, hiwid], hwc⟩,
        ⟨i.product_id, i.warehouse_id,
          (windowSum db.sales (now - (lookback_days : Int)) i.product_id i.warehouse_id : ℚ) /
            (lookback_days : ℚ)⟩,
        ⟨mem_sales_velocity.mpr ⟨hposi, rfl⟩, rfl, rfl⟩, hlt, rfl⟩
    · exact hppid
    · exact hwwid

/-- Witness for C1 on the sample database: the pair (1, 1) has stock 5
below threshold 10 and recent sales, so an alert for it is emitted. -/
theorem C1_alert_filter_witness :
    ∃ a ∈ sortedAlertRows sampleAlertDB 1 100, a.product_id = 1 ∧ a.warehouse_id = 1 :=
  (C1_alert_filter sampleAlertDB 1 100 1 1).mpr (by decide)

/-! ## Claim C2 -/

/-- Claim C2: the output list is sorted by the `days_until_stockout` key
ascending with nulls last (so an undefined forecast never precedes a
defined one), it is a permutation of the joined rows, and the sort is
stable: two alerts with equal keys keep their relative input order. -/
theorem C2_sort_order (db : AlertDB) (company_id : Nat) (now : Int) :
    (sortedAlertRows db company_id now).Sorted alertR ∧
    (sortedAlertRows db company_id now).Perm (alertRows db company_id now) ∧
    (∀ a b, List.Sublist [a, b] (sortedAlertRows db company_id now) →
      a.days_until_stockout = none → b.days_until_stockout = none) ∧
    (∀ a b, a.days_until_stockout = b.days_until_stockout →
      List.Sublist [a, b] (alertRows db company_id now) →
      List.Sublist [a, b] (sortedAlertRows db company_id now)) := by
  refine ⟨List.sorted_insertionSort alertR _, List.perm_insertionSort alertR _, ?_, ?_⟩
  · intro a b hs hnone
    have hp : List.Pairwise alertR [a, b] :=
      (List.sorted_insertionSort alertR _).sublist hs
    have hr : alertR a b := List.pairwise_pair.mp hp
    revert hr
    simp only [alertR, alertLE, hnone, stockoutLE]
    cases hb : b.days_until_stockout
    · simp
    · simp
  · intro a b hd hs
    refine List.pair_sublist_insertionSort ?_ hs
    show alertR a b
    simp only [alertR, alertLE, hd]
    cases hb : b.days_until_stockout <;> simp [stockoutLE]

/-- Witness for C2's stability on the sample database: its two equal-key
alerts keep their input order in the sorted output. -/
theorem C2_sort_order_witness :
    List.Sublist [sampleAlert, sampleAlert] (sortedAlertRows sampleAlertDB 1 100) := by
  have he : alertRows sampleAlertDB 1 100 = [sampleAlert, sampleAlert] := rfl
  refine (C2_sort_order sampleAlertDB 1 100).2.2.2 sampleAlert sampleAlert rfl ?_
  rw [he]

/-! ## Claim C7 -/

/-- Claim C7: if the fetch raises, the handler returns the 500 error and no
alert list at all; and any successful response carries the complete
computed alert list together with its length — never a partial list. -/
theorem C7_fetch_failure_aborts (db : AlertDB) (company_id : Nat) (now : Int)
    (fetchFails : Bool) :
    (fetchFails = true →
      ∀ l n, get_low_stock_alerts db company_id now fetchFails ≠ .ok l n) ∧
    (∀ l n, get_low_stock_alerts db company_id now fetchFails = .ok l n →
      l = sortedAlertRows db company_id now ∧
      n = (sortedAlertRows db company_id now).length) := by
  constructor
  · rintro rfl l n
    simp only [get_low_stock_alerts]
    cases db.companies.find? (fun c => c.id == company_id && c.is_active) <;> simp
  · intro l n h
    simp only [get_low_stock_alerts] at h
    revert h
    cases db.companies.find? (fun c => c.id == company_id && c.is_active) with
    | none => intro h; cases h
    | some _ =>
      cases fetchFails with
      | true => intro h; simp at h
      | false =>
        intro h
        simp only [Bool.false_eq_true, if_false, AlertResponse.ok.injEq] at h
        exact ⟨h.1.symm, h.2.symm⟩

/-- Witness for C7: on the sample database a failing fetch never yields a
success response. -/
theorem C7_fetch_failure_aborts_witness :
    get_low_stock_alerts sampleAlertDB 1 100 true ≠ .ok [] 0 :=
  (C7_fetch_failure_aborts sampleAlertDB 1 100 true).1 rfl [] 0

/-! ## Helper lemmas for the creation workflow -/

/-- A non-empty normalized SKU comes from a truthy `sku` field. -/
theorem truthyStr_of_normalize_ne {s : Option String} (h : normalizeSku s ≠ "") :
    truthyStr s = true := by
  cases s with
  | none => exact absurd rfl h
  | some str =>
    by_cases hstr : str = ""
    · subst hstr
      exact absurd rfl h
    · simp [truthyStr, hstr]

/-- Exhaustive description of one run of `create_product` on a present
body: it exits early with a 400, a 404 or the (normalized-SKU) 409
leaving the database untouched, or all validations passed and the run is
the transactional insert. -/
theorem create_product_run (data : CreateRequest) (db : ProductDB) (fault : DbFault) :
    (∃ msg, create_product (some data) db fault = (.badRequest msg, db)) ∨
    (∃ wid, create_product (some data) db fault = (.warehouseNotFound wid, db)) ∨
    (create_product (some data) db fault = (.skuConflict (normalizeSku data.sku), db)) ∨
    (truthyStr data.name = true ∧ truthyStr data.sku = true ∧
      normalizeSku data.sku ≠ "" ∧ (normalizeSku data.sku).length ≤ 50 ∧
      (db.products.find? (fun pr => pr.sku == normalizeSku data.sku)).isSome = false ∧
      ∃ price inv,
        (truthyInt data.warehouse_id = false → inv = none) ∧
        (truthyInt data.warehouse_id = true → ∃ wq, inv = some wq) ∧
        create_product (some data) db fault =
          tryInsert db fault data (normalizeSku data.sku) price inv) := by
  cases hn : truthyStr data.name with
  | false =>
    exact Or.inl ⟨_, by
      simp only [create_product, hn, Bool.false_eq_true, if_false, if_true]
      rw [if_pos (by simp)]⟩
  | true =>
    cases hs : truthyStr data.sku with
    | false =>
      exact Or.inl ⟨_, by
        simp only [create_product, hn, hs, Bool.false_eq_true, if_false, if_true]
        rw [if_pos (by simp)]⟩
    | true =>
      by_cases hfmt :
          (normalizeSku data.sku == "" || decide ((normalizeSku data.sku).length > 50)) = true
      · exact Or.inl ⟨_, by
          simp only [create_product, hn, hs, hfmt, if_true, List.nil_append, ne_eq,
            not_true_eq_false, if_false]
          rfl⟩
      · have hfmt2 : normalizeSku data.sku ≠ "" ∧ (normalizeSku data.sku).length ≤ 50 := by
          simp only [Bool.or_eq_true, beq_iff_eq, decide_eq_true_eq] at hfmt
          push_neg at hfmt
          exact ⟨hfmt.1, hfmt.2⟩
        cases hdup : (db.products.find? (fun pr => pr.sku == normalizeSku data.sku)).isSome with
        | true =>
          refine Or.inr (Or.inr (Or.inl ?_))
          simp only [create_product, hn, hs, hfmt, hdup, if_true, List.nil_append, ne_eq,
            not_true_eq_false, if_false, Bool.false_eq_true]
        | false =>
          cases hp : validatePrice data.price with
          | error msg =>
            exact Or.inl ⟨msg, by
              simp only [create_product, hn, hs, hfmt, hdup, hp, if_true, List.nil_append,
                ne_eq, not_true_eq_false, if_false, Bool.false_eq_true]⟩
          | ok price =>
            cases hwh : truthyInt data.warehouse_id with
            | false =>
              refine Or.inr (Or.inr (Or.inr ⟨rfl, rfl, hfmt2.1, hfmt2.2, rfl, price, none,
                fun _ => rfl, fun h => Bool.noConfusion h, ?_⟩))
              simp only [create_product, hn, hs, hfmt, hdup, hp, hwh, if_true,
                List.nil_append, ne_eq, not_true_eq_false, if_false, Bool.false_eq_true]
            | true =>
              cases hcw : db.warehouses.contains (data.warehouse_id.getD 0) with
              | false =>
                exact Or.inr (Or.inl ⟨_, by
                  simp only [create_product, hn, hs, hfmt, hdup, hp, hwh, hcw, if_true,
                    List.nil_append, ne_eq, not_true_eq_false, if_false, Bool.false_eq_true,
                    Bool.not_false, Bool.not_true]
                  rfl⟩)
              | true =>
                cases hq : data.initial_quantity.getD (QtyVal.intLike 0) with
                | malformed =>
                  exact Or.inl ⟨_, by
                    simp only [create_product, hn, hs, hfmt, hdup, hp, hwh, hcw, hq, if_true,
                      List.nil_append, ne_eq, not_true_eq_false, if_false, Bool.false_eq_true,
                      Bool.not_false, Bool.not_true]
                    rfl⟩
                | intLike qty =>
                  by_cases hneg : qty < 0
                  · exact Or.inl ⟨_, by
                      simp only [create_product, hn, hs, hfmt, hdup, hp, hwh, hcw, hq, hneg,
                        if_true, List.nil_append, ne_eq, not_true_eq_false, if_false,
                        Bool.false_eq_true, Bool.not_false, Bool.not_true]
                      rfl⟩
                  · refine Or.inr (Or.inr (Or.inr ⟨rfl, rfl, hfmt2.1, hfmt2.2, rfl, price,
                      some (data.warehouse_id.getD 0, qty), fun h => Bool.noConfusion h,
                      fun _ => ⟨_, rfl⟩, ?_⟩))
                    simp only [create_product, hn, hs, hfmt, hdup, hp, hwh, hcw, hq, hneg,
                      if_true, List.nil_append, ne_eq, not_true_eq_false, if_false,
                      Bool.false_eq_true, Bool.not_false, Bool.not_true]

/-- A request that passes the body, required-field and format checks but
whose normalized SKU already exists in the store is rejected as the
distinguishable 409 conflict, leaving the database untouched. -/
theorem create_product_duplicate (data : CreateRequest) (db : ProductDB) (fault : DbFault)
    (hn : truthyStr data.name = true) (hne : normalizeSku data.sku ≠ "")
    (hlen : (normalizeSku data.sku).length ≤ 50)
    (hdup : (db.products.find? (fun pr => pr.sku == normalizeSku data.sku)).isSome = true) :
    create_product (some data) db fault = (.skuConflict (normalizeSku data.sku), db) := by
  have hs := truthyStr_of_normalize_ne hne
  have hfmt : (normalizeSku data.sku == "" || decide ((normalizeSku data.sku).length > 50))
      = false := by
    simp [hne, Nat.not_lt.mpr hlen]
  simp only [create_product, hn, hs, hfmt, hdup, if_true, List.nil_append, ne_eq,
    not_true_eq_false, if_false, Bool.false_eq_true]

/-! ## Claim C8 -/

/-- Claim C8: the creation workflow is atomic. A 201 with an inventory object
commits exactly one product row and one inventory row together; a 201
without one commits exactly the product row; every non-created exit
leaves the committed state unchanged (rollback); an injected
sku-uniqueness `IntegrityError` is never reported as the generic
constraint violation or the 500; and a duplicate normalized SKU in the
store is answered with the distinguishable 409 conflict. -/
theorem C8_create_product_atomic (req : Option CreateRequest) (db : ProductDB)
    (fault : DbFault) :
    (∀ p i, (create_product req db fault).1 = .created p (some i) →
      (∃ prod, (create_product req db fault).2.products = db.products ++ [prod]) ∧
      (∃ invr, (create_product req db fault).2.inventory = db.inventory ++ [invr])) ∧
    (∀ p, (create_product req db fault).1 = .created p none →
      (∃ prod, (create_product req db fault).2.products = db.products ++ [prod]) ∧
      (create_product req db fault).2.inventory = db.inventory) ∧
    ((∀ p oi, (create_product req db fault).1 ≠ .created p oi) →
      (create_product req db fault).2 = db) ∧
    (fault = .integrityError true →
      (create_product req db fault).1 ≠ .constraintViolation ∧
      (create_product req db fault).1 ≠ .serverError) ∧
    (∀ data, req = some data → truthyStr data.name = true →
      normalizeSku data.sku ≠ "" → (normalizeSku data.sku).length ≤ 50 →
      (db.products.find? (fun pr => pr.sku == normalizeSku data.sku)).isSome = true →
      (create_product req db fault).1 = .skuConflict (normalizeSku data.sku)) := by
  refine ⟨?_, ?_, ?_, ?_, ?_⟩
  · intro p i h
    cases req with
    | none => exact absurd h (by simp [create_product])
    | some data =>
      rcases create_product_run data db fault with ⟨msg, heq⟩ | ⟨wid, heq⟩ | heq |
        ⟨-, -, -, -, -, price, inv, -, -, heq⟩
      · rw [heq] at h
        exact absurd h (by simp)
      · rw [heq] at h
        exact absurd h (by simp)
      · rw [heq] at h
        exact absurd h (by simp)
      · rw [heq] at h ⊢
        cases fault with
        | ok =>
          cases inv with
          | some wq => exact ⟨⟨_, rfl⟩, ⟨_, rfl⟩⟩
          | none => simp [tryInsert] at h
        | integrityError b => cases b <;> simp [tryInsert] at h
        | otherError => simp [tryInsert] at h
  · intro p h
    cases req with
    | none => exact absurd h (by simp [create_product])
    | some data =>
      rcases create_product_run data db fault with ⟨msg, heq⟩ | ⟨wid, heq⟩ | heq |
        ⟨-, -, -, -, -, price, inv, -, -, heq⟩
      · rw [heq] at h
        exact absurd h (by simp)
      · rw [heq] at h
        exact absurd h (by simp)
      · rw [heq] at h
        exact absurd h (by simp)
      · rw [heq] at h ⊢
        cases fault with
        | ok =>
          cases inv with
          | some wq => simp [tryInsert] at h
          | none => exact ⟨⟨_, rfl⟩, rfl⟩
        | integrityError b => cases b <;> simp [tryInsert] at h
        | otherError => simp [tryInsert] at h
  · intro hnc
    cases req with
    | none => rfl
    | some data =>
      rcases create_product_run data db fault with ⟨msg, heq⟩ | ⟨wid, heq⟩ | heq |
        ⟨-, -, -, -, -, price, inv, -, -, heq⟩
      · rw [heq]
      · rw [heq]
      · rw [heq]
      · rw [heq] at hnc ⊢
        cases fault with
        | ok =>
          exfalso
          cases inv with
          | some wq => exact hnc _ _ rfl
          | none => exact hnc _ _ rfl
        | integrityError b => cases b <;> rfl
        | otherError => rfl
  · rintro rfl
    cases req with
    | none => exact ⟨by simp [create_product], by simp [create_product]⟩
    | some data =>
      rcases create_product_run data db (.integrityError true) with ⟨msg, heq⟩ | ⟨wid, heq⟩ |
        heq | ⟨-, -, -, -, -, price, inv, -, -, heq⟩
      · rw [heq]
        exact ⟨by simp, by simp⟩
      · rw [heq]
        exact ⟨by simp, by simp⟩
      · rw [heq]
        exact ⟨by simp, by simp⟩
      · rw [heq]
        exact ⟨by simp [tryInsert], by simp [tryInsert]⟩
  · rintro data rfl hn hne hlen hdup
    rw [create_product_duplicate data db fault hn hne hlen hdup]

/-- Witness for C8 at a concrete successful run: creating "Widget" with
SKU " wid-1 " and 3 units in warehouse 1 commits one product row and one
inventory row together. -/
theorem C8_create_product_atomic_witness :
    (∃ prod, (create_product (some sampleCreateReq) sampleProductDB .ok).2.products =
      sampleProductDB.products ++ [prod]) ∧
    (∃ invr, (create_product (some sampleCreateReq) sampleProductDB .ok).2.inventory =
      sampleProductDB.inventory ++ [invr]) :=
  (C8_create_product_atomic (some sampleCreateReq) sampleProductDB .ok).1
    ⟨1, "Widget", "WID-1", none⟩ ⟨1, 3⟩ (by decide)

/-! ## Claim C9 -/

/-- Claim C9: the SKU is normalized (stripped and upcased) before use: a 201
response and the stored row both carry the normalized SKU, every 409
conflict names the normalized SKU, and after a successful creation a
second request whose SKU normalizes to the same string is rejected as
already existing. -/
theorem C9_sku_normalization :
    (∀ data db fault p oi, (create_product (some data) db fault).1 = .created p oi →
      p.sku = normalizeSku data.sku ∧
      ∃ prod, prod.sku = normalizeSku data.sku ∧
        (create_product (some data) db fault).2.products = db.products ++ [prod]) ∧
    (∀ data db fault s db2,
      create_product (some data) db fault = (.skuConflict s, db2) →
      s = normalizeSku data.sku) ∧
    (∀ req1 req2 db f2 p oi,
      (create_product (some req1) db .ok).1 = .created p oi →
      truthyStr req2.name = true →
      normalizeSku req2.sku = normalizeSku req1.sku →
      (create_product (some req2) ((create_product (some req1) db .ok).2) f2).1 =
        .skuConflict (normalizeSku req2.sku)) := by
  refine ⟨?_, ?_, ?_⟩
  · intro data db fault p oi h
    rcases create_product_run data db fault with ⟨msg, heq⟩ | ⟨wid, heq⟩ | heq |
      ⟨-, -, -, -, -, price, inv, -, -, heq⟩
    · rw [heq] at h
      exact absurd h (by simp)
    · rw [heq] at h
      exact absurd h (by simp)
    · rw [heq] at h
      exact absurd h (by simp)
    · rw [heq] at h ⊢
      cases fault with
      | ok =>
        cases inv with
        | some wq =>
          simp only [tryInsert, CreateResponse.created.injEq] at h
          rw [← h.1]
          exact ⟨rfl, ⟨_, rfl, rfl⟩⟩
        | none =>
          simp only [tryInsert, CreateResponse.created.injEq] at h
          rw [← h.1]
          exact ⟨rfl, ⟨_, rfl, rfl⟩⟩
      | integrityError b => cases b <;> simp [tryInsert] at h
      | otherError => simp [tryInsert] at h
  · intro data db fault s db2 h
    rcases create_product_run data db fault with ⟨msg, heq⟩ | ⟨wid, heq⟩ | heq |
      ⟨-, -, -, -, -, price, inv, -, -, heq⟩
    · rw [heq] at h
      simp at h
    · rw [heq] at h
      simp at h
    · rw [heq] at h
      simp only [Prod.mk.injEq, CreateResponse.skuConflict.injEq] at h
      exact h.1.symm
    · rw [heq] at h
      cases fault with
      | ok =>
        cases inv with
        | some wq => simp [tryInsert] at h
        | none => simp [tryInsert] at h
      | integrityError b =>
        cases b with
        | true =>
          simp only [tryInsert, Prod.mk.injEq, CreateResponse.skuConflict.injEq] at h
          exact h.1.symm
        | false => simp [tryInsert] at h
      | otherError => simp [tryInsert] at h
  · intro req1 req2 db f2 p oi h1 hname hskueq
    rcases create_product_run req1 db .ok with ⟨msg, heq⟩ | ⟨wid, heq⟩ | heq |
      ⟨-, -, hne1, hlen1, -, price, inv, -, -, heq⟩
    · rw [heq] at h1
      exact absurd h1 (by simp)
    · rw [heq] at h1
      exact absurd h1 (by simp)
    · rw [heq] at h1
      exact absurd h1 (by simp)
    · rw [heq]
      have hprods : ((tryInsert db .ok req1 (normalizeSku req1.sku) price inv).2).products =
          db.products ++ [⟨db.next_product_id, pyStrip (req1.name.getD ""),
            normalizeSku req1.sku, price, pyStrip (req1.description.getD "")⟩] := by
        cases inv <;> rfl
      have hdup2 : (((tryInsert db .ok req1 (normalizeSku req1.sku) price inv).2).products.find?
          (fun pr => pr.sku == normalizeSku req2.sku)).isSome = true := by
        rw [hprods, List.find?_isSome]
        refine ⟨⟨db.next_product_id, pyStrip (req1.name.getD ""), normalizeSku req1.sku,
          price, pyStrip (req1.description.getD "")⟩, by simp, ?_⟩
        simp [hskueq]
      rw [create_product_duplicate req2 _ f2 hname (by rw [hskueq]; exact hne1)
        (by rw [hskueq]; exact hlen1) hdup2]

/-- Witness for C9: creating SKU " ab " (stored as "AB") and then
creating SKU "AB" yields the 409 conflict on the second request. -/
theorem C9_sku_normalization_witness :
    (create_product (some sampleReqB)
      ((create_product (some sampleReqA) sampleProductDB .ok).2) .ok).1 =
      .skuConflict "AB" :=
  C9_sku_normalization.2.2 sampleReqA sampleReqB sampleProductDB .ok
    ⟨1, "X", "AB", none⟩ none (by decide) (by decide) (by decide)

/-! ## Claim C10 -/

/-- Claim C10: an inventory row is created iff a truthy `warehouse_id` is
supplied. With a falsy warehouse the committed inventory is unchanged, a
201 response carries no inventory object, and the run does not depend on
`initial_quantity` at all (a malformed or negative value is neither
validated nor persisted); with a truthy warehouse every 201 carries an
inventory object whose row is committed. -/
theorem C10_inventory_warehouse_gate (data : CreateRequest) (db : ProductDB)
    (fault : DbFault) :
    (truthyInt data.warehouse_id = false →
      (create_product (some data) db fault).2.inventory = db.inventory ∧
      (∀ p oi, (create_product (some data) db fault).1 = .created p oi → oi = none) ∧
      (∀ q, create_product (some { data with initial_quantity := q }) db fault =
        create_product (some data) db fault)) ∧
    (truthyInt data.warehouse_id = true →
      ∀ p oi, (create_product (some data) db fault).1 = .created p oi →
        ∃ i, oi = some i ∧
          (create_product (some data) db fault).2.inventory =
            db.inventory ++ [⟨db.next_product_id, i.warehouse_id, i.quantity⟩]) := by
  constructor
  · intro hwf
    refine ⟨?_, ?_, ?_⟩
    · rcases create_product_run data db fault with ⟨msg, heq⟩ | ⟨wid, heq⟩ | heq |
        ⟨-, -, -, -, -, price, inv, hinvn, -, heq⟩
      · rw [heq]
      · rw [heq]
      · rw [heq]
      · rw [heq, hinvn hwf]
        cases fault with
        | ok => rfl
        | integrityError b => cases b <;> rfl
        | otherError => rfl
    · intro p oi h
      rcases create_product_run data db fault with ⟨msg, heq⟩ | ⟨wid, heq⟩ | heq |
        ⟨-, -, -, -, -, price, inv, hinvn, -, heq⟩
      · rw [heq] at h
        exact absurd h (by simp)
      · rw [heq] at h
        exact absurd h (by simp)
      · rw [heq] at h
        exact absurd h (by simp)
      · rw [heq, hinvn hwf] at h
        cases fault with
        | ok =>
          simp only [tryInsert, CreateResponse.created.injEq] at h
          exact h.2.symm
        | integrityError b => cases b <;> simp [tryInsert] at h
        | otherError => simp [tryInsert] at h
    · intro q
      obtain ⟨n, sk, pr, de, wi, iq⟩ := data
      simp only at hwf
      cases hn2 : truthyStr n with
      | false => simp [create_product, hn2]
      | true =>
        cases hs2 : truthyStr sk with
        | false => simp [create_product, hn2, hs2]
        | true =>
          by_cases hfmt : (normalizeSku sk == "" || decide ((normalizeSku sk).length > 50))
              = true
          · simp [create_product, hn2, hs2, hfmt]
          · cases hdup : (db.products.find? (fun x => x.sku == normalizeSku sk)).isSome with
            | true => simp [create_product, hn2, hs2, hfmt, hdup]
            | false =>
              cases hvp : validatePrice pr with
              | error msg => simp [create_product, hn2, hs2, hfmt, hdup, hvp]
              | ok price =>
                simp only [create_product, hn2, hs2, hfmt, hdup, hvp, hwf, if_true,
                  List.nil_append, ne_eq, not_true_eq_false, if_false, Bool.false_eq_true]
                cases fault <;> rfl
  · intro hwt p oi h
    rcases create_product_run data db fault with ⟨msg, heq⟩ | ⟨wid, heq⟩ | heq |
      ⟨-, -, -, -, -, price, inv, -, hinvs, heq⟩
    · rw [heq] at h
      exact absurd h (by simp)
    · rw [heq] at h
      exact absurd h (by simp)
    · rw [heq] at h
      exact absurd h (by simp)
    · obtain ⟨wq, rfl⟩ := hinvs hwt
      rw [heq] at h ⊢
      cases fault with
      | ok =>
        simp only [tryInsert, CreateResponse.created.injEq] at h
        exact ⟨⟨wq.1, wq.2⟩, h.2.symm, rfl⟩
      | integrityError b => cases b <;> simp [tryInsert] at h
      | otherError => simp [tryInsert] at h

/-- Witness for C10: with no warehouse supplied, a malformed
`initial_quantity` changes nothing — the run equals the run with a valid
quantity, succeeds, and persists no inventory row. -/
theorem C10_inventory_warehouse_gate_witness :
    create_product (some ⟨some "X", some "AB", none, none, none, some .malformed⟩)
      sampleProductDB .ok = create_product (some sampleReqNoWh) sampleProductDB .ok ∧
    (create_product (some sampleReqNoWh) sampleProductDB .ok).2.inventory =
      sampleProductDB.inventory := by
  have h := (C10_inventory_warehouse_gate sampleReqNoWh sampleProductDB .ok).1 rfl
  exact ⟨h.2.2 (some .malformed), h.1⟩
